import Mathlib

/- Verification of the CycloneSafeRoute (SAFEST_AREA) repository core:
   risk scoring (src/utils/storm_stress.py and the storm-stress expression of
   src/app.py), weather normalization (src/utils/open_meteo.py), routing
   (src/utils/routing.py) and the nearest-camp scan of src/app.py.
   Real-valued program quantities are embedded as ℚ where the code only does
   field arithmetic and comparisons, and as ℝ where it uses sqrt/trig. -/

namespace SafestArea

/-- Risk tier of `classify_risk` (src/utils/storm_stress.py): the first
component of the returned triple. -/
inductive RiskLevel
  | LOW
  | MODERATE
  | HIGH
deriving DecidableEq

/-- `classify_risk` from src/utils/storm_stress.py lines 51-70: maps an average
storm-stress value to a (risk_level, color, description) triple with fixed
thresholds 2500 and 1500 and strict `>` comparisons. -/
def classify_risk (avg_stress : ℚ) : RiskLevel × String × String :=
  if avg_stress > 2500 then
    (RiskLevel.HIGH, "red", "⚠️ Severe cyclone risk - Immediate evacuation recommended")
  else if avg_stress > 1500 then
    (RiskLevel.MODERATE, "orange", "⚡ Moderate cyclone risk - Stay alert and prepare")
  else
    (RiskLevel.LOW, "green", "✅ Low cyclone risk - Normal precautions advised")

/-- The storm-stress expression of src/app.py line 291:
`(weather['wind_speed'] ** 2) + (weather['precipitation'] * 10)`. -/
def storm_stress (wind_speed precipitation : ℚ) : ℚ :=
  wind_speed ^ 2 + precipitation * 10

/-- The `current` object of an Open-Meteo response as consumed by
src/utils/open_meteo.py: each field may be absent (`Option`). A successful
HTTP response whose JSON lacks the `current` key behaves as a `RawCurrent`
with every field absent (`data.get("current", {})`). -/
structure RawCurrent where
  wind_speed_10m : Option ℚ
  wind_gusts_10m : Option ℚ
  precipitation : Option ℚ
  weather_code : Option ℤ
  time : Option String

/-- The dictionary returned by `fetch_realtime_weather`
(src/utils/open_meteo.py lines 45-51 and 56-62). -/
structure WeatherRecord where
  wind_speed : ℚ
  wind_gust : ℚ
  precipitation : ℚ
  weather_code : ℤ
  time : String
deriving DecidableEq

/-- The success-path dictionary built by `fetch_realtime_weather`
(src/utils/open_meteo.py lines 45-51): each field is read with
`current.get(key, default)` where the default is 0 for the numeric fields and
the empty string for `time`. -/
def parseCurrent (current : RawCurrent) : WeatherRecord :=
  { wind_speed := current.wind_speed_10m.getD 0
    wind_gust := current.wind_gusts_10m.getD 0
    precipitation := current.precipitation.getD 0
    weather_code := current.weather_code.getD 0
    time := current.time.getD "" }

/-- `fetch_realtime_weather` from src/utils/open_meteo.py lines 29-62: the
provider outcome is `some current` when the HTTP call succeeds (any subset of
fields present) and `none` when any exception is raised, in which case the
hard-coded fallback dictionary of lines 56-62 is returned. -/
def fetch_realtime_weather : Option RawCurrent → WeatherRecord
  | some current => parseCurrent current
  | none =>
    { wind_speed := 0, wind_gust := 0, precipitation := 0, weather_code := 0, time := "N/A" }

/-- Rank of a risk tier in the ordering LOW < MODERATE < HIGH. -/
def RiskLevel.rank : RiskLevel → ℕ
  | RiskLevel.LOW => 0
  | RiskLevel.MODERATE => 1
  | RiskLevel.HIGH => 2

/-- A latitude/longitude pair. The live code passes coordinates as
`(latitude, longitude)` tuples. -/
structure Coordinate where
  latitude : ℝ
  longitude : ℝ

/-- A relief-camp row of the static shelter dataset
(columns `camp_name`, `latitude`, `longitude`, `capacity`). -/
structure Camp where
  camp_name : String
  latitude : ℝ
  longitude : ℝ
  capacity : ℕ

/-- An element of the `routes` array of an OSRM routing response, with the
fields src/utils/routing.py consumes: `distance` (meters), `duration`
(seconds) and `geometry` (opaque GeoJSON). -/
structure OsrmRoute where
  distance : ℚ
  duration : ℚ
  geometry : String
deriving DecidableEq

/-- Outcome of one OSRM provider call as seen by `get_fastest_route`
(src/utils/routing.py lines 34-46): `failure` when `requests.get`,
`raise_for_status` or the timeout raises a `RequestException`, otherwise the
decoded JSON's `code` field and `routes` array (a missing `routes` key is the
empty array). -/
inductive ProviderOutcome
  | failure
  | response (code : String) (routes : List OsrmRoute)

/-- `get_fastest_route` from src/utils/routing.py lines 9-46: on a decoded
response it returns the first route when `code == "Ok"` and the `routes`
array is non-empty (`routes.head?`), and `None` otherwise; every caught
request exception also yields `None`. -/
def get_fastest_route : ProviderOutcome → Option OsrmRoute
  | ProviderOutcome.failure => none
  | ProviderOutcome.response code routes =>
    if code = "Ok" then routes.head? else none

/-- A ranked-route dictionary appended by `get_multiple_routes`
(src/utils/routing.py lines 74-79). -/
structure RankedRoute where
  destination : Camp
  distance_km : ℚ
  duration_min : ℚ
  geometry : String

/-- The comparison used by `routes.sort(key=lambda x: x["duration_min"])`:
ascending by `duration_min`. -/
def routeLE (a b : RankedRoute) : Bool :=
  decide (a.duration_min ≤ b.duration_min)

/-- The intermediate `routes` list of `get_multiple_routes`
(src/utils/routing.py lines 65-79) before sorting: one `get_fastest_route`
call per destination, destinations whose call returns `None` dropped, the
rest turned into ranked-route records with `distance_km = distance / 1000`
and `duration_min = duration / 60`. The network is modelled by the `provider`
argument giving the outcome of the call for each origin/destination pair. -/
def availableRoutes (provider : Coordinate → Coordinate → ProviderOutcome)
    (src : Coordinate) (destinations : List Camp) : List RankedRoute :=
  destinations.filterMap fun dest =>
    (get_fastest_route (provider src ⟨dest.latitude, dest.longitude⟩)).map fun route =>
      { destination := dest
        distance_km := route.distance / 1000
        duration_min := route.duration / 60
        geometry := route.geometry }

/-- `get_multiple_routes` from src/utils/routing.py lines 49-84: the collected
ranked routes sorted stably ascending by `duration_min` (Python's `list.sort`
is stable; `List.mergeSort` is the stable sort of the Lean library). -/
def get_multiple_routes (provider : Coordinate → Coordinate → ProviderOutcome)
    (src : Coordinate) (destinations : List Camp) : List RankedRoute :=
  (availableRoutes provider src destinations).mergeSort routeLE

/-- `math.radians`: degrees to radians. -/
noncomputable def radians (x : ℝ) : ℝ := x * (Real.pi / 180)

/-- `calculate_distance` from src/utils/routing.py lines 87-115: the Haversine
formula on a sphere of radius 6371 km. -/
noncomputable def calculate_distance (coord1 coord2 : Coordinate) : ℝ :=
  let lat1 := radians coord1.latitude
  let lon1 := radians coord1.longitude
  let lat2 := radians coord2.latitude
  let lon2 := radians coord2.longitude
  let dlat := lat2 - lat1
  let dlon := lon2 - lon1
  let a := Real.sin (dlat / 2) ^ 2 +
    Real.cos lat1 * Real.cos lat2 * Real.sin (dlon / 2) ^ 2
  let c := 2 * Real.arcsin (Real.sqrt a)
  c * 6371

/-- The loop body of the nearest-camp scan of src/app.py lines 337-344,
generic in the distance values: the accumulator holds the best camp so far
with its distance, and is replaced only on a strictly smaller distance
(`if d < min_dist`). The Python initial state `nearest_camp = None,
min_dist = float('inf')` is modelled by the `none` accumulator, which the
first camp always replaces (every real distance is below `inf`). -/
def nearestScanAux {α : Type} [LinearOrder α] (dist : Camp → α) :
    List Camp → Option (Camp × α) → Option (Camp × α)
  | [], acc => acc
  | camp :: rest, acc =>
    let d := dist camp
    match acc with
    | none => nearestScanAux dist rest (some (camp, d))
    | some (best, min_dist) =>
      if d < min_dist then nearestScanAux dist rest (some (camp, d))
      else nearestScanAux dist rest (some (best, min_dist))

/-- The nearest-camp scan of src/app.py lines 337-344 over a list of camps,
generic in the distance function. -/
def nearestScan {α : Type} [LinearOrder α] (dist : Camp → α) (camps : List Camp) :
    Option (Camp × α) :=
  nearestScanAux dist camps none

/-- The nearest-camp scan as the app runs it: distances computed by
`calculate_distance` from the user location to each camp's coordinates. -/
noncomputable def nearest_camp_scan (user : Coordinate) (camps : List Camp) :
    Option (Camp × ℝ) :=
  nearestScan (fun camp => calculate_distance user ⟨camp.latitude, camp.longitude⟩) camps

/-- An input row of the historical pipeline's DataFrame
(src/utils/storm_stress.py lines 17-24): the `10m_u_component_of_wind`,
`10m_v_component_of_wind` and `total_precipitation` columns. -/
structure Era5Row where
  u10 : ℝ
  v10 : ℝ
  total_precipitation : ℝ

/-- A row of the DataFrame returned by `compute_storm_stress`: the original
columns plus the added `wind_speed`, `gust_proxy` and `storm_stress` columns. -/
structure StressRow where
  u10 : ℝ
  v10 : ℝ
  total_precipitation : ℝ
  wind_speed : ℝ
  gust_proxy : ℝ
  storm_stress : ℝ

/-- The per-row computation of `compute_storm_stress`
(src/utils/storm_stress.py lines 33-46): `wind_speed = sqrt(u^2 + v^2)`,
`gust_proxy = wind_speed * 1.3`,
`storm_stress = gust_proxy^2 + total_precipitation * 10`. -/
noncomputable def computeStormStressRow (row : Era5Row) : StressRow :=
  let wind_speed := Real.sqrt (row.u10 ^ 2 + row.v10 ^ 2)
  let gust_proxy := wind_speed * 1.3
  { u10 := row.u10
    v10 := row.v10
    total_precipitation := row.total_precipitation
    wind_speed := wind_speed
    gust_proxy := gust_proxy
    storm_stress := gust_proxy ^ 2 + row.total_precipitation * 10 }

/-- `compute_storm_stress` from src/utils/storm_stress.py lines 8-48, applied
row-wise to the DataFrame (pandas column arithmetic is elementwise). -/
noncomputable def compute_storm_stress (df : List Era5Row) : List StressRow :=
  df.map computeStormStressRow

/-- The spec's base stress formula over ℝ (`stress = wind^2 + precip * 10`),
written from the spec's words for the refinement comparison of the two
storm-stress variants. -/
def specStressFormula (wind precip : ℝ) : ℝ := wind ^ 2 + precip * 10

/-- C1: `classify_risk` returns the HIGH triple exactly when the stress exceeds
2500, the MODERATE triple exactly when the stress lies in (1500, 2500], and the
LOW triple otherwise — in particular at exactly 2500 or 1500 the lower tier is
chosen, and every negative stress is LOW; the function is total and always
returns one of the three fixed level/message pairs of the threshold table. -/
theorem classify_risk_spec (s : ℚ) :
    (classify_risk s = (RiskLevel.HIGH, "red",
      "⚠️ Severe cyclone risk - Immediate evacuation recommended") ↔ 2500 < s) ∧
    (classify_risk s = (RiskLevel.MODERATE, "orange",
      "⚡ Moderate cyclone risk - Stay alert and prepare") ↔ 1500 < s ∧ s ≤ 2500) ∧
    (classify_risk s = (RiskLevel.LOW, "green",
      "✅ Low cyclone risk - Normal precautions advised") ↔ s ≤ 1500) := by
  unfold classify_risk
  split_ifs with h1 h2
  · exact ⟨iff_of_true rfl h1,
      iff_of_false (by decide) (fun h => by linarith [h.2]),
      iff_of_false (by decide) (not_le.mpr (by linarith))⟩
  · exact ⟨iff_of_false (by decide) h1,
      iff_of_true rfl ⟨h2, not_lt.mp h1⟩,
      iff_of_false (by decide) (not_le.mpr h2)⟩
  · exact ⟨iff_of_false (by decide) h1,
      iff_of_false (by decide) (fun h => h2 h.1),
      iff_of_true rfl (not_lt.mp h2)⟩

/-- C6: the storm-stress score of src/app.py equals wind speed squared plus
precipitation times 10; in particular it is 150 at (10, 5) and 0 at (0, 0). -/
theorem storm_stress_spec :
    (∀ weather : WeatherRecord,
      storm_stress weather.wind_speed weather.precipitation =
        weather.wind_speed ^ 2 + weather.precipitation * 10) ∧
    storm_stress 10 5 = 150 ∧ storm_stress 0 0 = 0 :=
  ⟨fun _ => rfl, by norm_num [storm_stress], by norm_num [storm_stress]⟩

/-- C9 counterexample: on a provider failure the record returned by
`fetch_realtime_weather` carries `time = "N/A"`, not the empty-string default
used by the success-path parse. -/
theorem fetch_realtime_weather_failure_time :
    (fetch_realtime_weather none).time = "N/A" ∧ (fetch_realtime_weather none).time ≠ "" :=
  ⟨rfl, by decide⟩

/-- C9 (amended): `fetch_realtime_weather` never throws and always returns a
complete record; on parse each absent field defaults to 0 (numeric fields) or
the empty string (`time`), while on a provider failure the returned record has
numeric fields 0 but `time = "N/A"` rather than the empty string. -/
theorem fetch_realtime_weather_defaults :
    (∀ current : RawCurrent,
      (current.wind_speed_10m = none → (parseCurrent current).wind_speed = 0) ∧
      (current.wind_gusts_10m = none → (parseCurrent current).wind_gust = 0) ∧
      (current.precipitation = none → (parseCurrent current).precipitation = 0) ∧
      (current.weather_code = none → (parseCurrent current).weather_code = 0) ∧
      (current.time = none → (parseCurrent current).time = "")) ∧
    fetch_realtime_weather none =
      { wind_speed := 0, wind_gust := 0, precipitation := 0,
        weather_code := 0, time := "N/A" } := by
  refine ⟨fun current => ⟨?_, ?_, ?_, ?_, ?_⟩, rfl⟩ <;>
    (intro h; simp [parseCurrent, h])

/-- Witness for C9 (amended) at the all-absent `RawCurrent`. -/
theorem fetch_realtime_weather_defaults_witness :
    (parseCurrent ⟨none, none, none, none, none⟩).wind_speed = 0 ∧
    (parseCurrent ⟨none, none, none, none, none⟩).time = "" :=
  ⟨(fetch_realtime_weather_defaults.1 ⟨none, none, none, none, none⟩).1 rfl,
   (fetch_realtime_weather_defaults.1 ⟨none, none, none, none, none⟩).2.2.2.2 rfl⟩

/-- C10: the storm-stress score is monotone non-decreasing in wind speed and
precipitation (over non-negative inputs), and composing with `classify_risk`,
increasing either input never lowers the risk tier in the ordering
LOW < MODERATE < HIGH. -/
theorem storm_stress_monotone (w p w₂ p₂ : ℚ) (hw : 0 ≤ w) (hp : 0 ≤ p)
    (hww : w ≤ w₂) (hpp : p ≤ p₂) :
    storm_stress w p ≤ storm_stress w₂ p₂ ∧
    ((classify_risk (storm_stress w p)).1).rank ≤
      ((classify_risk (storm_stress w₂ p₂)).1).rank := by
  have hs : storm_stress w p ≤ storm_stress w₂ p₂ := by
    unfold storm_stress
    have hsq : w ^ 2 ≤ w₂ ^ 2 := pow_le_pow_left₀ hw hww 2
    linarith
  refine ⟨hs, ?_⟩
  unfold classify_risk
  split_ifs <;> norm_num [RiskLevel.rank] <;> linarith

/-- Witness for C10 at (10, 5) ≤ (40, 20). -/
theorem storm_stress_monotone_witness :
    (0 : ℚ) ≤ 10 ∧ (0 : ℚ) ≤ 5 ∧ (10 : ℚ) ≤ 40 ∧ (5 : ℚ) ≤ 20 ∧
    (storm_stress 10 5 ≤ storm_stress 40 20 ∧
      ((classify_risk (storm_stress 10 5)).1).rank ≤
        ((classify_risk (storm_stress 40 20)).1).rank) :=
  ⟨by norm_num, by norm_num, by norm_num, by norm_num,
    storm_stress_monotone 10 5 40 20 (by norm_num) (by norm_num)
      (by norm_num) (by norm_num)⟩

/-- `routeLE` is transitive. -/
theorem routeLE_trans (a b c : RankedRoute) :
    routeLE a b = true → routeLE b c = true → routeLE a c = true := by
  intro h1 h2
  simp only [routeLE, decide_eq_true_iff] at h1 h2 ⊢
  exact le_trans h1 h2

/-- `routeLE` is total. -/
theorem routeLE_total (a b : RankedRoute) : (routeLE a b || routeLE b a) = true := by
  simp only [routeLE, Bool.or_eq_true, decide_eq_true_iff]
  exact le_total _ _

/-- Stability of the duration sort: the sublist of records with any fixed
`duration_min` value is unchanged by `mergeSort routeLE`. -/
theorem mergeSort_routeLE_filter (l : List RankedRoute) (q : ℚ) :
    (l.mergeSort routeLE).filter (fun r => decide (r.duration_min = q)) =
      l.filter (fun r => decide (r.duration_min = q)) := by
  set p : RankedRoute → Bool := fun r => decide (r.duration_min = q) with hp
  have hpl : ∀ a ∈ l.filter p, ∀ b ∈ l.filter p, routeLE a b = true := by
    intro a ha b hb
    have ha2 := (List.mem_filter.mp ha).2
    have hb2 := (List.mem_filter.mp hb).2
    simp only [hp, decide_eq_true_iff] at ha2 hb2
    simp only [routeLE, decide_eq_true_iff]
    rw [ha2, hb2]
  have hsub : (l.filter p).Sublist (l.mergeSort routeLE) :=
    List.sublist_mergeSort routeLE_trans routeLE_total
      (List.pairwise_of_forall_mem_list hpl) (List.filter_sublist l)
  have hsub2 : (l.filter p).Sublist ((l.mergeSort routeLE).filter p) := by
    have h1 := List.Sublist.filter p hsub
    rwa [List.filter_eq_self.mpr (fun a ha => (List.mem_filter.mp ha).2)] at h1
  have hperm : ((l.mergeSort routeLE).filter p).Perm (l.filter p) :=
    (List.mergeSort_perm l routeLE).filter p
  exact (hsub2.eq_of_length hperm.length_eq.symm).symm

/-- C5: `get_fastest_route` returns `None` (never an exception) on every
caught network/timeout failure, on every response whose `code` is not `"Ok"`,
and on an empty `routes` array; on a `code = "Ok"` response with a non-empty
`routes` array it returns the first route (its distance, duration and
geometry). -/
theorem get_fastest_route_spec :
    get_fastest_route ProviderOutcome.failure = none ∧
    (∀ code routes, code ≠ "Ok" →
      get_fastest_route (ProviderOutcome.response code routes) = none) ∧
    (∀ code, get_fastest_route (ProviderOutcome.response code []) = none) ∧
    (∀ route rest,
      get_fastest_route (ProviderOutcome.response "Ok" (route :: rest)) = some route) := by
  refine ⟨rfl, ?_, ?_, fun route rest => rfl⟩
  · intro code routes h
    simp [get_fastest_route, h]
  · intro code
    simp [get_fastest_route]

/-- Witness for C5 at a non-`"Ok"` provider code. -/
theorem get_fastest_route_spec_witness :
    ("NoRoute" : String) ≠ "Ok" ∧
    get_fastest_route (ProviderOutcome.response "NoRoute" [⟨1000, 600, "line"⟩]) = none :=
  ⟨by decide, get_fastest_route_spec.2.1 "NoRoute" [⟨1000, 600, "line"⟩] (by decide)⟩

/-- C3: `get_multiple_routes` returns exactly the ranked records of the
destinations whose route call succeeded (one call per destination, with
`distance_km = distance / 1000` and `duration_min = duration / 60`), sorted
ascending by duration, and the sort is stable: records with equal duration
keep their relative input order. -/
theorem get_multiple_routes_spec (provider : Coordinate → Coordinate → ProviderOutcome)
    (src : Coordinate) (destinations : List Camp) :
    (get_multiple_routes provider src destinations).Perm
      (availableRoutes provider src destinations) ∧
    (∀ r : RankedRoute, r ∈ get_multiple_routes provider src destinations ↔
      ∃ dest ∈ destinations, ∃ route : OsrmRoute,
        get_fastest_route (provider src ⟨dest.latitude, dest.longitude⟩) = some route ∧
        r = { destination := dest
              distance_km := route.distance / 1000
              duration_min := route.duration / 60
              geometry := route.geometry }) ∧
    (get_multiple_routes provider src destinations).Pairwise
      (fun a b => a.duration_min ≤ b.duration_min) ∧
    ∀ q : ℚ, (get_multiple_routes provider src destinations).filter
        (fun r => decide (r.duration_min = q)) =
      (availableRoutes provider src destinations).filter
        (fun r => decide (r.duration_min = q)) := by
  have hperm : (get_multiple_routes provider src destinations).Perm
      (availableRoutes provider src destinations) :=
    List.mergeSort_perm _ _
  refine ⟨hperm, ?_, ?_, ?_⟩
  · intro r
    rw [hperm.mem_iff]
    simp only [availableRoutes, List.mem_filterMap, Option.map_eq_some']
    constructor
    · rintro ⟨dest, hdest, route, hroute, hr⟩
      exact ⟨dest, hdest, route, hroute, hr.symm⟩
    · rintro ⟨dest, hdest, route, hroute, hr⟩
      exact ⟨dest, hdest, route, hroute, hr.symm⟩
  · exact (List.sorted_mergeSort routeLE_trans routeLE_total _).imp
      (fun h => of_decide_eq_true h)
  · intro q
    exact mergeSort_routeLE_filter _ q

/-- One step of the scan with an empty accumulator: the first camp is taken. -/
theorem nearestScanAux_none_step {α : Type} [LinearOrder α] (dist : Camp → α)
    (camp : Camp) (rest : List Camp) :
    nearestScanAux dist (camp :: rest) none =
      nearestScanAux dist rest (some (camp, dist camp)) := rfl

/-- One step of the scan with a non-empty accumulator: replaced exactly on a
strictly smaller distance. -/
theorem nearestScanAux_some_step {α : Type} [LinearOrder α] (dist : Camp → α)
    (camp : Camp) (rest : List Camp) (best : Camp) (min_dist : α) :
    nearestScanAux dist (camp :: rest) (some (best, min_dist)) =
      if dist camp < min_dist then nearestScanAux dist rest (some (camp, dist camp))
      else nearestScanAux dist rest (some (best, min_dist)) := rfl

/-- Invariant of the scan: starting from an accumulator holding `b`, the scan
of `l` returns the first camp of `b :: l` attaining the minimal distance,
together with that distance. -/
theorem nearestScanAux_spec {α : Type} [LinearOrder α] (dist : Camp → α)
    (l : List Camp) (b : Camp) :
    ∃ best d, nearestScanAux dist l (some (b, dist b)) = some (best, d) ∧
      best ∈ b :: l ∧ d = dist best ∧ (∀ c ∈ b :: l, d ≤ dist c) ∧
      ∃ pre post, b :: l = pre ++ best :: post ∧ ∀ c ∈ pre, d < dist c := by
  induction l generalizing b with
  | nil =>
    refine ⟨b, dist b, rfl, List.mem_singleton.mpr rfl, rfl, ?_, [], [], rfl, by simp⟩
    intro c hc
    rw [List.mem_singleton.mp hc]
  | cons c0 rest ih =>
    rw [nearestScanAux_some_step]
    by_cases h : dist c0 < dist b
    · rw [if_pos h]
      obtain ⟨best, d, heq, hmem, hd, hmin, pre, post, hsplit, hpre⟩ := ih c0
      have hdc : d ≤ dist c0 := hmin c0 (List.mem_cons_self c0 rest)
      refine ⟨best, d, heq, List.mem_cons_of_mem b hmem, hd, ?_, b :: pre, post, ?_, ?_⟩
      · intro x hx
        rcases List.mem_cons.mp hx with rfl | hx2
        · exact le_of_lt (lt_of_le_of_lt hdc h)
        · exact hmin x hx2
      · rw [List.cons_append, ← hsplit]
      · intro x hx
        rcases List.mem_cons.mp hx with rfl | hx2
        · exact lt_of_le_of_lt hdc h
        · exact hpre x hx2
    · rw [if_neg h]
      have hbc : dist b ≤ dist c0 := le_of_not_lt h
      obtain ⟨best, d, heq, hmem, hd, hmin, pre, post, hsplit, hpre⟩ := ih b
      have hdb : d ≤ dist b := hmin b (List.mem_cons_self b rest)
      refine ⟨best, d, heq, ?_, hd, ?_, ?_⟩
      · rcases List.mem_cons.mp hmem with rfl | hmem2
        · exact List.mem_cons_self best (c0 :: rest)
        · exact List.mem_cons_of_mem _ (List.mem_cons_of_mem _ hmem2)
      · intro x hx
        rcases List.mem_cons.mp hx with rfl | hx2
        · exact hdb
        · rcases List.mem_cons.mp hx2 with rfl | hx3
          · exact le_trans hdb hbc
          · exact hmin x (List.mem_cons_of_mem _ hx3)
      · cases pre with
        | nil =>
          simp only [List.nil_append, List.cons.injEq] at hsplit
          obtain ⟨rfl, rfl⟩ := hsplit
          exact ⟨[], c0 :: rest, rfl, by simp⟩
        | cons q pre1 =>
          simp only [List.cons_append, List.cons.injEq] at hsplit
          obtain ⟨rfl, hrest⟩ := hsplit
          refine ⟨b :: c0 :: pre1, post, ?_, ?_⟩
          · rw [List.cons_append, List.cons_append, hrest]
          · intro x hx
            rcases List.mem_cons.mp hx with rfl | hx2
            · exact hpre x (List.mem_cons_self x pre1)
            · rcases List.mem_cons.mp hx2 with rfl | hx3
              · exact lt_of_lt_of_le (hpre b (List.mem_cons_self b pre1)) hbc
              · exact hpre x (List.mem_cons_of_mem _ hx3)

/-- The scan on a non-empty camp list returns the first camp attaining the
minimal distance, with that distance. -/
theorem nearestScan_spec {α : Type} [LinearOrder α] (dist : Camp → α)
    (camps : List Camp) (hne : camps ≠ []) :
    ∃ best d, nearestScan dist camps = some (best, d) ∧ best ∈ camps ∧
      d = dist best ∧ (∀ c ∈ camps, d ≤ dist c) ∧
      ∃ pre post, camps = pre ++ best :: post ∧ ∀ c ∈ pre, d < dist c := by
  cases camps with
  | nil => exact absurd rfl hne
  | cons c0 rest =>
    unfold nearestScan
    rw [nearestScanAux_none_step]
    exact nearestScanAux_spec dist rest c0

/-- The scan yields no camp exactly on the empty list. -/
theorem nearestScan_eq_none_iff {α : Type} [LinearOrder α] (dist : Camp → α)
    (camps : List Camp) : nearestScan dist camps = none ↔ camps = [] := by
  constructor
  · intro h
    by_contra hne
    obtain ⟨best, d, heq, -⟩ := nearestScan_spec dist camps hne
    rw [heq] at h
    exact Option.noConfusion h
  · rintro rfl
    rfl

/-- C2 counterexample: on an empty camp collection the nearest-camp scan of
src/app.py completes normally and yields no camp (`none`); no exception of any
kind (in particular no `EmptyShelterSet`) is raised — the app's
`if nearest_camp is not None` guard then silently skips the panel. -/
theorem nearest_camp_scan_empty_silent :
    nearest_camp_scan ⟨20.2961, 85.8245⟩ [] = none := rfl

/-- C2 (amended): on an empty shelter collection the nearest-camp scan
returns no result (`none`) without raising any error, and emptiness is the
only condition under which it fails to return a camp. -/
theorem nearest_camp_scan_none_iff (user : Coordinate) (camps : List Camp) :
    nearest_camp_scan user camps = none ↔ camps = [] :=
  nearestScan_eq_none_iff _ camps

/-- C4: on a non-empty camp list the scan computes the Haversine distance to
every camp and returns a camp at minimal distance together with that distance;
at ties the first camp in iteration order is returned (every camp strictly
before the winner is strictly farther). -/
theorem nearest_camp_scan_spec (user : Coordinate) (camps : List Camp)
    (hne : camps ≠ []) :
    ∃ best d, nearest_camp_scan user camps = some (best, d) ∧ best ∈ camps ∧
      d = calculate_distance user ⟨best.latitude, best.longitude⟩ ∧
      (∀ c ∈ camps, d ≤ calculate_distance user ⟨c.latitude, c.longitude⟩) ∧
      ∃ pre post, camps = pre ++ best :: post ∧
        ∀ c ∈ pre, d < calculate_distance user ⟨c.latitude, c.longitude⟩ :=
  nearestScan_spec (fun camp => calculate_distance user ⟨camp.latitude, camp.longitude⟩)
    camps hne

/-- Witness for C4 on a one-camp list. -/
theorem nearest_camp_scan_spec_witness :
    (([⟨"Camp A", 20, 85, 100⟩] : List Camp) ≠ []) ∧
    (∃ best d, nearest_camp_scan ⟨0, 0⟩ [⟨"Camp A", 20, 85, 100⟩] = some (best, d) ∧
      best ∈ ([⟨"Camp A", 20, 85, 100⟩] : List Camp) ∧
      d = calculate_distance ⟨0, 0⟩ ⟨best.latitude, best.longitude⟩ ∧
      (∀ c ∈ ([⟨"Camp A", 20, 85, 100⟩] : List Camp),
        d ≤ calculate_distance ⟨0, 0⟩ ⟨c.latitude, c.longitude⟩) ∧
      ∃ pre post, ([⟨"Camp A", 20, 85, 100⟩] : List Camp) = pre ++ best :: post ∧
        ∀ c ∈ pre, d < calculate_distance ⟨0, 0⟩ ⟨c.latitude, c.longitude⟩) :=
  ⟨by simp, nearest_camp_scan_spec ⟨0, 0⟩ [⟨"Camp A", 20, 85, 100⟩] (by simp)⟩

/-- C8: `calculate_distance` is symmetric in its two coordinates and is
exactly 0 on equal coordinates; as a Lean function it is pure. -/
theorem calculate_distance_symm_zero (a b : Coordinate) :
    calculate_distance a b = calculate_distance b a ∧ calculate_distance a a = 0 := by
  have key : ∀ x y : ℝ, Real.sin ((x - y) / 2) ^ 2 = Real.sin ((y - x) / 2) ^ 2 := by
    intro x y
    have hxy : (x - y) / 2 = -((y - x) / 2) := by ring
    rw [hxy, Real.sin_neg]
    ring
  constructor
  · simp only [calculate_distance]
    rw [key (radians b.latitude) (radians a.latitude),
      key (radians b.longitude) (radians a.longitude),
      mul_comm (Real.cos (radians a.latitude)) (Real.cos (radians b.latitude))]
  · simp [calculate_distance]

/-- C7: each row of the historical pipeline gets the storm-stress value of
the base stress formula applied to the gust proxy, which equals
`(1.3 * sqrt(u^2 + v^2))^2 + total_precipitation * 10`
(equivalently `1.69 * (u^2 + v^2) + total_precipitation * 10`), and the live
storm-stress expression agrees with that same base formula on every
normalized reading: the two variants are the same logical operation. -/
theorem compute_storm_stress_refines (df : List Era5Row) (row : Era5Row) :
    compute_storm_stress df = df.map computeStormStressRow ∧
    (computeStormStressRow row).storm_stress =
      specStressFormula (computeStormStressRow row).gust_proxy row.total_precipitation ∧
    (computeStormStressRow row).storm_stress =
      (1.3 * Real.sqrt (row.u10 ^ 2 + row.v10 ^ 2)) ^ 2 +
        row.total_precipitation * 10 ∧
    (computeStormStressRow row).storm_stress =
      1.69 * (row.u10 ^ 2 + row.v10 ^ 2) + row.total_precipitation * 10 ∧
    ∀ w p : ℚ, ((storm_stress w p : ℚ) : ℝ) = specStressFormula (w : ℝ) (p : ℝ) := by
  have ha : (0 : ℝ) ≤ row.u10 ^ 2 + row.v10 ^ 2 := by positivity
  refine ⟨rfl, rfl, ?_, ?_, ?_⟩
  · show (Real.sqrt (row.u10 ^ 2 + row.v10 ^ 2) * 1.3) ^ 2 +
      row.total_precipitation * 10 = _
    ring
  · show (Real.sqrt (row.u10 ^ 2 + row.v10 ^ 2) * 1.3) ^ 2 +
      row.total_precipitation * 10 = _
    rw [mul_pow, Real.sq_sqrt ha]
    norm_num
    ring
  · intro w p
    unfold storm_stress specStressFormula
    push_cast
    ring

end SafestArea
